import Mathlib

/-!
Shallow embedding of the `fastapi_site` catalog service.

Sources embedded directly from the repository:
  `src/fastapi_site/schemas.py` (request/response shapes),
  `src/fastapi_site/users.py`   (users router handlers),
  `src/fastapi_site/items.py`   (items router handlers),
  `src/fastapi_site/main.py`    (login handler and module imports).

The repository references modules `app.crud`, `app.auth`, `app.models`,
`app.database` that are not present under `src/`; their operations are
modelled from the spec (sections 3, 4.1-4.6) and each such definition is
marked `Modelled from the spec:` in its doc comment.

Python `float` prices are never computed on by the embedded code: they are
carried opaquely, modelled here as `Int` carriers.  Timestamps are `Nat`
instants.  SQLite autoincrement ids are modelled by per-table counters.
-/

namespace FastapiSite

/-- Persistent User record (spec section 3; `app.models` is absent from src). -/
structure User where
  id : Nat
  email : String
  username : String
  full_name : Option String
  password_hash : String
  is_active : Bool
  created_at : Nat
  updated_at : Option Nat
deriving Repr, DecidableEq

/-- Persistent Item record (spec section 3; `app.models` is absent from src). -/
structure Item where
  id : Nat
  title : String
  description : Option String
  price : Option Int
  is_available : Bool
  owner_id : Nat
  created_at : Nat
  updated_at : Option Nat
deriving Repr, DecidableEq

/-- The persistence store: Users and Items plus autoincrement counters
(`app.database` is absent from src; spec section 2 Persistence Layer). -/
structure DB where
  users : List User
  items : List Item
  nextUserId : Nat
  nextItemId : Nat
deriving Repr, DecidableEq

/-! ### Request schemas, from `src/fastapi_site/schemas.py` -/

/-- schemas.UserCreate: email, username, full_name?, password. -/
structure UserCreate where
  email : String
  username : String
  full_name : Option String
  password : String
deriving Repr, DecidableEq

/-- schemas.UserUpdate: every field optional. -/
structure UserUpdate where
  email : Option String
  username : Option String
  full_name : Option String
  password : Option String
deriving Repr, DecidableEq

/-- schemas.ItemCreate (= ItemBase): title, description?, price?.
There is no owner field. -/
structure ItemCreate where
  title : String
  description : Option String
  price : Option Int
deriving Repr, DecidableEq

/-- schemas.ItemUpdate: every field optional; no owner_id field. -/
structure ItemUpdate where
  title : Option String
  description : Option String
  price : Option Int
  is_available : Option Bool
deriving Repr, DecidableEq

/-- schemas.LoginRequest. -/
structure LoginRequest where
  username : String
  password : String
deriving Repr, DecidableEq

/-! ### Response schemas, from `src/fastapi_site/schemas.py` -/

/-- schemas.User, the response model: carries no password or password hash. -/
structure UserOut where
  email : String
  username : String
  full_name : Option String
  id : Nat
  is_active : Bool
  created_at : Nat
  updated_at : Option Nat
deriving Repr, DecidableEq

/-- schemas.Item, the response model (`owner` relation optionally joined). -/
structure ItemOut where
  title : String
  description : Option String
  price : Option Int
  id : Nat
  owner_id : Nat
  is_available : Bool
  created_at : Nat
  updated_at : Option Nat
  owner : Option UserOut
deriving Repr, DecidableEq

/-- Serialize a stored User through the response schema `schemas.User`:
the password hash is dropped because the schema has no such field. -/
def User.toOut (u : User) : UserOut :=
  { email := u.email
    username := u.username
    full_name := u.full_name
    id := u.id
    is_active := u.is_active
    created_at := u.created_at
    updated_at := u.updated_at }

/-- Serialize a stored Item through `schemas.Item` (owner not joined). -/
def Item.toOut (it : Item) : ItemOut :=
  { title := it.title
    description := it.description
    price := it.price
    id := it.id
    owner_id := it.owner_id
    is_available := it.is_available
    created_at := it.created_at
    updated_at := it.updated_at
    owner := none }

/-- Login success payload (`{access_token, token_type}`). -/
structure TokenResponse where
  access_token : String
  token_type : String
deriving Repr, DecidableEq

/-- Response bodies of the embedded endpoints. -/
inductive Body where
  | user : UserOut → Body
  | userList : List UserOut → Body
  | item : ItemOut → Body
  | itemList : List ItemOut → Body
  | token : TokenResponse → Body
deriving Repr, DecidableEq

/-- An HTTP-level outcome: a success with a status code and body, an
`HTTPException` with a status code, detail and extra headers, or an
unhandled Python exception (which FastAPI surfaces as a 500 response). -/
inductive Resp where
  | ok (status : Nat) (body : Body)
  | err (status : Nat) (detail : String) (headers : List (String × String))
  | pyError (msg : String)
deriving Repr, DecidableEq

/-! ### Credential store and token service (absent from src) -/

/-- Modelled from the spec: `app.auth` password hashing (spec 4.1) — a
one-way transform; the concrete KDF is abstracted into an injective tag. -/
def hash_password (p : String) : String := "$hashed$" ++ p

/-- Modelled from the spec: `app.auth` password verification (spec 4.1). -/
def verify_password (plain hashed : String) : Bool :=
  hashed == hash_password plain

/-- Modelled from the spec: `app.auth.ACCESS_TOKEN_EXPIRE_MINUTES`
(spec 4.2, time-limited tokens). -/
def ACCESS_TOKEN_EXPIRE_MINUTES : Nat := 30

/-- Modelled from the spec: `app.auth.create_access_token` (spec 4.2) —
a signed token embedding the subject and an absolute expiry instant;
signing is abstracted, the payload is encoded as `<exp>.<subject>`. -/
def create_access_token (sub : String) (exp : Nat) : String :=
  toString exp ++ "." ++ sub

/-- Modelled from the spec: token validation (spec 4.2) — recover the
subject and expiry from a well-formed token, else fail. -/
def decode_token (tok : String) : Option (String × Nat) :=
  match tok.splitOn "." with
  | [] => none
  | e :: rest =>
    if rest.isEmpty then none
    else (e.toNat?).map (fun n => (String.intercalate "." rest, n))

/-! ### Persistence operations `app.crud` (absent from src) -/

/-- Modelled from the spec: `crud.get_user` — lookup by id (spec 4.5 get). -/
def crud.get_user (db : DB) (user_id : Nat) : Option User :=
  db.users.find? (fun u => u.id == user_id)

/-- Modelled from the spec: `crud.get_user_by_email` (spec 4.5 register). -/
def crud.get_user_by_email (db : DB) (email : String) : Option User :=
  db.users.find? (fun u => u.email == email)

/-- Modelled from the spec: `crud.get_user_by_username` (spec 4.5). -/
def crud.get_user_by_username (db : DB) (username : String) : Option User :=
  db.users.find? (fun u => u.username == username)

/-- Modelled from the spec: `crud.get_users` — offset/limit pagination in
id (= insertion) order (spec 4.5 list). -/
def crud.get_users (db : DB) (skip limit : Nat) : List User :=
  (db.users.drop skip).take limit

/-- Modelled from the spec: `crud.create_user` — hashes the password,
persists, returns the created record (spec 4.5 register). -/
def crud.create_user (db : DB) (user : UserCreate) (now : Nat) : DB × User :=
  let u : User :=
    { id := db.nextUserId
      email := user.email
      username := user.username
      full_name := user.full_name
      password_hash := hash_password user.password
      is_active := true
      created_at := now
      updated_at := none }
  ({ db with users := db.users ++ [u], nextUserId := db.nextUserId + 1 }, u)

/-- Modelled from the spec: `crud.authenticate_user` — looks up by
username, verifies the password; both failures are reported identically
(spec 4.5 authenticate). -/
def crud.authenticate_user (db : DB) (username password : String) : Option User :=
  match crud.get_user_by_username db username with
  | none => none
  | some u => if verify_password password u.password_hash then some u else none

/-- Uniqueness-violation kinds raised by the persistence layer
(spec section 7 taxonomy, `Conflict`). -/
inductive CrudErr where
  | conflictEmail
  | conflictUsername
deriving Repr, DecidableEq

/-- Modelled from the spec: `crud.update_user` (spec 4.5 update) — `none`
when the user does not exist; email/username uniqueness re-checked against
other users if changed (Conflict on collision); password re-hashed if
supplied; updated_at refreshed. -/
def crud.update_user (db : DB) (user_id : Nat) (up : UserUpdate) (now : Nat) :
    Except CrudErr (Option (DB × User)) :=
  match crud.get_user db user_id with
  | none => .ok none
  | some u =>
    let newEmail := up.email.getD u.email
    let newUsername := up.username.getD u.username
    if newEmail != u.email &&
        db.users.any (fun v => v.id != u.id && v.email == newEmail) then
      .error .conflictEmail
    else if newUsername != u.username &&
        db.users.any (fun v => v.id != u.id && v.username == newUsername) then
      .error .conflictUsername
    else
      let u2 : User :=
        { u with
          email := newEmail
          username := newUsername
          full_name := (match up.full_name with
            | some f => some f
            | none => u.full_name)
          password_hash := (match up.password with
            | some p => hash_password p
            | none => u.password_hash)
          updated_at := some now }
      .ok (some
        ({ db with users := db.users.map (fun v => if v.id == user_id then u2 else v) },
         u2))

/-- Modelled from the spec: `crud.delete_user` (spec 4.5 delete) — `none`
when the user does not exist, else removes it and returns the snapshot. -/
def crud.delete_user (db : DB) (user_id : Nat) : Option (DB × User) :=
  match crud.get_user db user_id with
  | none => none
  | some u =>
    some ({ db with users := db.users.filter (fun v => v.id != user_id) }, u)

/-- Case-insensitive substring test on character lists. -/
def charsStartWith : List Char → List Char → Bool
  | _, [] => true
  | [], _ :: _ => false
  | c :: cs, d :: ds => c == d && charsStartWith cs ds

/-- Whether `sub` occurs as a contiguous sublist of `hay`. -/
def charsContain (hay sub : List Char) : Bool :=
  match hay with
  | [] => sub.isEmpty
  | _ :: t => charsStartWith hay sub || charsContain t sub

/-- Case-insensitive substring match (Python `ilike("%s%")`). -/
def containsCI (hay sub : String) : Bool :=
  charsContain hay.toLower.data sub.toLower.data

/-- Whether an item matches an optional search string: case-insensitive
substring on title OR description (spec 4.6 list). -/
def itemMatches (search : Option String) (it : Item) : Bool :=
  match search with
  | none => true
  | some s =>
    containsCI it.title s ||
      (match it.description with
       | some d => containsCI d s
       | none => false)

/-- Modelled from the spec: `crud.get_items` (spec 4.6 list) — optional
case-insensitive substring filter on title OR description, then
offset/limit pagination in id (= insertion) order. -/
def crud.get_items (db : DB) (skip limit : Nat) (search : Option String) : List Item :=
  (((db.items.filter (itemMatches search)).drop skip).take limit)

/-- Modelled from the spec: `crud.get_user_items` (spec 4.6 listByOwner). -/
def crud.get_user_items (db : DB) (user_id skip limit : Nat) : List Item :=
  (((db.items.filter (fun it => it.owner_id == user_id)).drop skip).take limit)

/-- Modelled from the spec: `crud.get_item` — lookup by id (spec 4.6 get). -/
def crud.get_item (db : DB) (item_id : Nat) : Option Item :=
  db.items.find? (fun it => it.id == item_id)

/-- Modelled from the spec: `crud.create_user_item` (spec 4.6 create) —
owner_id set from the given user id, is_available defaults true. -/
def crud.create_user_item (db : DB) (item : ItemCreate) (user_id : Nat) (now : Nat) :
    DB × Item :=
  let it : Item :=
    { id := db.nextItemId
      title := item.title
      description := item.description
      price := item.price
      is_available := true
      owner_id := user_id
      created_at := now
      updated_at := none }
  ({ db with items := db.items ++ [it], nextItemId := db.nextItemId + 1 }, it)

/-- Modelled from the spec: `crud.update_item` (spec 4.6 update) — `none`
when the item does not exist; any subset of
{title, description, price, is_available} may change; updated_at
refreshed; id, owner_id, created_at untouched. -/
def crud.update_item (db : DB) (item_id : Nat) (up : ItemUpdate) (now : Nat) :
    Option (DB × Item) :=
  match crud.get_item db item_id with
  | none => none
  | some it =>
    let it2 : Item :=
      { it with
        title := up.title.getD it.title
        description := (match up.description with
          | some d => some d
          | none => it.description)
        price := (match up.price with
          | some p => some p
          | none => it.price)
        is_available := up.is_available.getD it.is_available
        updated_at := some now }
    some
      ({ db with items := db.items.map (fun v => if v.id == item_id then it2 else v) },
       it2)

/-- Modelled from the spec: `crud.delete_item` (spec 4.6 delete). -/
def crud.delete_item (db : DB) (item_id : Nat) : Option (DB × Item) :=
  match crud.get_item db item_id with
  | none => none
  | some it =>
    some ({ db with items := db.items.filter (fun v => v.id != item_id) }, it)

/-! ### Route handlers, from `src/fastapi_site/main.py`, `users.py`, `items.py` -/

/-- Names bound at module top level of `src/fastapi_site/main.py` by its
imported modules.  `status` is not among them: line 1 brings in only
`FastAPI, Depends, HTTPException` from fastapi. -/
def mainImportedNames : List String :=
  ["FastAPI", "Depends", "HTTPException", "CORSMiddleware", "StaticFiles",
   "HTMLResponse", "JSONResponse", "Session", "engine", "get_db", "models",
   "schemas", "crud", "users", "items", "create_access_token",
   "get_current_user", "ACCESS_TOKEN_EXPIRE_MINUTES", "timedelta", "os"]

/-- `login` from `src/fastapi_site/main.py` (POST /auth/login).  On
authentication failure the handler evaluates `status.HTTP_401_UNAUTHORIZED`;
when the name `status` is not bound in the module, CPython raises
`NameError` there instead of the intended HTTPException, and the unhandled
exception becomes a 500 response. -/
def login (db : DB) (login_data : LoginRequest) (now : Nat) : Resp :=
  match crud.authenticate_user db login_data.username login_data.password with
  | none =>
    if mainImportedNames.contains "status" then
      .err 401 "Неверное имя пользователя или пароль" [("WWW-Authenticate", "Bearer")]
    else
      .pyError "NameError: name 'status' is not defined"
  | some user =>
    .ok 200 (.token
      { access_token := create_access_token user.username (now + ACCESS_TOKEN_EXPIRE_MINUTES)
        token_type := "bearer" })

/-- The HTTPException carried out of the persistence layer for a
uniqueness violation (spec section 7: Conflict maps to the conflict HTTP
status used at the boundary, 400). -/
def conflictResp : CrudErr → Resp
  | .conflictEmail => .err 400 "Email уже зарегистрирован" []
  | .conflictUsername => .err 400 "Имя пользователя уже занято" []

/-- `create_user` from `src/fastapi_site/users.py` (POST /users/, 201):
email conflict check, then username conflict check, then creation. -/
def create_user (db : DB) (user : UserCreate) (now : Nat) : DB × Resp :=
  match crud.get_user_by_email db user.email with
  | some _ => (db, .err 400 "Email уже зарегистрирован" [])
  | none =>
    match crud.get_user_by_username db user.username with
    | some _ => (db, .err 400 "Имя пользователя уже занято" [])
    | none =>
      let r := crud.create_user db user now
      (r.1, .ok 201 (.user r.2.toOut))

/-- `read_users` from `src/fastapi_site/users.py` (GET /users/). -/
def read_users (db : DB) (skip limit : Nat) : Resp :=
  .ok 200 (.userList ((crud.get_users db skip limit).map User.toOut))

/-- `read_user_me` from `src/fastapi_site/users.py` (GET /users/me). -/
def read_user_me (current_user : User) : Resp :=
  .ok 200 (.user current_user.toOut)

/-- `read_user` from `src/fastapi_site/users.py` (GET /users/{user_id}). -/
def read_user (db : DB) (user_id : Nat) : Resp :=
  match crud.get_user db user_id with
  | none => .err 404 "Пользователь не найден" []
  | some u => .ok 200 (.user u.toOut)

/-- `update_user` from `src/fastapi_site/users.py` (PUT /users/{user_id}):
the self check runs FIRST; only then is `crud.update_user` called, whose
`none` result maps to 404 (a Conflict raised inside crud propagates). -/
def update_user (db : DB) (user_id : Nat) (user_update : UserUpdate)
    (current_user : User) (now : Nat) : DB × Resp :=
  if current_user.id != user_id then
    (db, .err 403 "Недостаточно прав" [])
  else
    match crud.update_user db user_id user_update now with
    | .error e => (db, conflictResp e)
    | .ok none => (db, .err 404 "Пользователь не найден" [])
    | .ok (some r) => (r.1, .ok 200 (.user r.2.toOut))

/-- `delete_user` from `src/fastapi_site/users.py` (DELETE /users/{user_id}):
self check first, then existence via `crud.delete_user`. -/
def delete_user (db : DB) (user_id : Nat) (current_user : User) : DB × Resp :=
  if current_user.id != user_id then
    (db, .err 403 "Недостаточно прав" [])
  else
    match crud.delete_user db user_id with
    | none => (db, .err 404 "Пользователь не найден" [])
    | some r => (r.1, .ok 200 (.user r.2.toOut))

/-- `create_item` from `src/fastapi_site/items.py` (POST /items/, 201):
the owner is the authenticated caller. -/
def create_item (db : DB) (item : ItemCreate) (current_user : User) (now : Nat) :
    DB × Resp :=
  let r := crud.create_user_item db item current_user.id now
  (r.1, .ok 201 (.item r.2.toOut))

/-- `read_items` from `src/fastapi_site/items.py` (GET /items/). -/
def read_items (db : DB) (skip limit : Nat) (search : Option String) : Resp :=
  .ok 200 (.itemList ((crud.get_items db skip limit search).map Item.toOut))

/-- `read_user_items` from `src/fastapi_site/items.py` (GET /items/my-items). -/
def read_user_items (db : DB) (skip limit : Nat) (current_user : User) : Resp :=
  .ok 200 (.itemList ((crud.get_user_items db current_user.id skip limit).map Item.toOut))

/-- `read_item` from `src/fastapi_site/items.py` (GET /items/{item_id}). -/
def read_item (db : DB) (item_id : Nat) : Resp :=
  match crud.get_item db item_id with
  | none => .err 404 "Товар не найден" []
  | some it => .ok 200 (.item it.toOut)

/-- `update_item` from `src/fastapi_site/items.py` (PUT /items/{item_id}):
existence check FIRST, then ownership, then the update.  Should
`crud.update_item` nonetheless find nothing, the handler hands `None` to
FastAPI and response_model validation fails (an unhandled error). -/
def update_item (db : DB) (item_id : Nat) (item_update : ItemUpdate)
    (current_user : User) (now : Nat) : DB × Resp :=
  match crud.get_item db item_id with
  | none => (db, .err 404 "Товар не найден" [])
  | some db_item =>
    if db_item.owner_id != current_user.id then
      (db, .err 403 "Недостаточно прав" [])
    else
      match crud.update_item db item_id item_update now with
      | some r => (r.1, .ok 200 (.item r.2.toOut))
      | none => (db, .pyError "ResponseValidationError")

/-- `delete_item` from `src/fastapi_site/items.py` (DELETE /items/{item_id}):
existence check first, then ownership. -/
def delete_item (db : DB) (item_id : Nat) (current_user : User) : DB × Resp :=
  match crud.get_item db item_id with
  | none => (db, .err 404 "Товар не найден" [])
  | some db_item =>
    if db_item.owner_id != current_user.id then
      (db, .err 403 "Недостаточно прав" [])
    else
      match crud.delete_item db item_id with
      | some r => (r.1, .ok 200 (.item r.2.toOut))
      | none => (db, .pyError "ResponseValidationError")

/-- FastAPI default of the `skip` query parameter in every list handler
(`skip: int = 0`). -/
def defaultSkip : Nat := 0

/-- FastAPI default of the `limit` query parameter in every list handler
(`limit: int = 100`). -/
def defaultLimit : Nat := 100

/-- GET /users/ with both pagination parameters omitted. -/
def read_users_default (db : DB) : Resp :=
  read_users db defaultSkip defaultLimit

/-- GET /items/ with both pagination parameters omitted. -/
def read_items_default (db : DB) (search : Option String) : Resp :=
  read_items db defaultSkip defaultLimit search

/-- GET /items/my-items with both pagination parameters omitted. -/
def read_user_items_default (db : DB) (current_user : User) : Resp :=
  read_user_items db defaultSkip defaultLimit current_user

/-! ### Authentication middleware and dispatch -/

/-- Modelled from the spec: `auth.get_current_user` (spec 4.3) — resolve
the bearer credential via the Token Service, then look the subject up in
the Persistence Layer; every failure mode is Unauthorized. -/
def get_current_user (db : DB) (now : Nat) (cred : Option String) : Option User :=
  match cred with
  | none => none
  | some tok =>
    match decode_token tok with
    | none => none
    | some se =>
      if now < se.2 then crud.get_user_by_username db se.1 else none

/-- The 401 response of a failed authentication, with the Bearer
re-authentication challenge (spec 4.3 and section 6). -/
def unauthorizedResp : Resp :=
  .err 401 "Could not validate credentials" [("WWW-Authenticate", "Bearer")]

/-- The application's routes, with their request payloads. -/
inductive Request where
  | authLogin (body : LoginRequest)
  | usersCreate (body : UserCreate)
  | usersList (skip limit : Nat)
  | usersMe
  | usersGet (user_id : Nat)
  | usersUpdate (user_id : Nat) (body : UserUpdate)
  | usersDelete (user_id : Nat)
  | itemsCreate (body : ItemCreate)
  | itemsList (skip limit : Nat) (search : Option String)
  | itemsMy (skip limit : Nat)
  | itemsGet (item_id : Nat)
  | itemsUpdate (item_id : Nat) (body : ItemUpdate)
  | itemsDelete (item_id : Nat)
deriving Repr, DecidableEq

/-- Whether the route's handler declares the `get_current_user`
dependency — read off each handler signature in `src/fastapi_site/users.py`,
`items.py` and `main.py`. -/
def requiresAuth : Request → Bool
  | .authLogin _ => false
  | .usersCreate _ => false
  | .usersList _ _ => false
  | .usersMe => true
  | .usersGet _ => false
  | .usersUpdate _ _ => true
  | .usersDelete _ => true
  | .itemsCreate _ => true
  | .itemsList _ _ _ => false
  | .itemsMy _ _ => true
  | .itemsGet _ => false
  | .itemsUpdate _ _ => true
  | .itemsDelete _ => true

/-- The public/protected partition as the spec words it (section 4.3):
listing/reading items and users, and login/registration, are public;
creating/updating/deleting items, updating/deleting users, and the
"my items"/"me" lookups are protected.  Stated from the SPEC, to be
compared against `requiresAuth`, which is read off the code. -/
def specProtected : Request → Bool
  | .itemsCreate _ => true
  | .itemsUpdate _ _ => true
  | .itemsDelete _ => true
  | .usersUpdate _ _ => true
  | .usersDelete _ => true
  | .itemsMy _ _ => true
  | .usersMe => true
  | _ => false

/-- Dispatch a request to its handler; protected handlers receive the
identity the middleware resolved. -/
def runReq (db : DB) (now : Nat) (cu : Option User) : Request → DB × Resp
  | .authLogin body => (db, login db body now)
  | .usersCreate body => create_user db body now
  | .usersList skip limit => (db, read_users db skip limit)
  | .usersMe =>
    (db, match cu with | some c => read_user_me c | none => unauthorizedResp)
  | .usersGet user_id => (db, read_user db user_id)
  | .usersUpdate user_id body =>
    (match cu with
     | some c => update_user db user_id body c now
     | none => (db, unauthorizedResp))
  | .usersDelete user_id =>
    (match cu with
     | some c => delete_user db user_id c
     | none => (db, unauthorizedResp))
  | .itemsCreate body =>
    (match cu with
     | some c => create_item db body c now
     | none => (db, unauthorizedResp))
  | .itemsList skip limit search => (db, read_items db skip limit search)
  | .itemsMy skip limit =>
    (db, match cu with | some c => read_user_items db skip limit c | none => unauthorizedResp)
  | .itemsGet item_id => (db, read_item db item_id)
  | .itemsUpdate item_id body =>
    (match cu with
     | some c => update_item db item_id body c now
     | none => (db, unauthorizedResp))
  | .itemsDelete item_id =>
    (match cu with
     | some c => delete_item db item_id c
     | none => (db, unauthorizedResp))

/-- Full request handling: the Authentication Middleware gate for
protected routes (spec 4.3), then the route's handler. -/
def handle (db : DB) (now : Nat) (cred : Option String) (req : Request) : DB × Resp :=
  if requiresAuth req then
    match get_current_user db now cred with
    | none => (db, unauthorizedResp)
    | some cu => runReq db now (some cu) req
  else runReq db now none req

/-! ### Concrete sample data for witnesses and counterexamples -/

/-- A stored user with id 1. -/
def alice : User :=
  { id := 1
    email := "alice@example.com"
    username := "alice"
    full_name := some "Alice A."
    password_hash := hash_password "wonder"
    is_active := true
    created_at := 0
    updated_at := none }

/-- A stored user with id 2. -/
def bob : User :=
  { id := 2
    email := "bob@example.com"
    username := "bob"
    full_name := none
    password_hash := hash_password "builder"
    is_active := true
    created_at := 0
    updated_at := none }

/-- A stored item with id 10, owned by bob. -/
def blueBike : Item :=
  { id := 10
    title := "Blue Bike"
    description := some "A sturdy bike"
    price := some 120
    is_available := true
    owner_id := 2
    created_at := 0
    updated_at := none }

/-- A sample store holding alice, bob and bob's item. -/
def sampleDB : DB :=
  { users := [alice, bob]
    items := [blueBike]
    nextUserId := 3
    nextItemId := 11 }

/-- A user update supplying no field. -/
def emptyUserUpdate : UserUpdate :=
  { email := none, username := none, full_name := none, password := none }

/-- An item update supplying no field. -/
def emptyItemUpdate : ItemUpdate :=
  { title := none, description := none, price := none, is_available := none }

/-! ### Claim theorems -/

/-- C1: the claim says a failed login yields HTTP 401 with a Bearer
challenge and never an internal error.  The code disagrees: `main.py`
never imports `status`, so the failure branch of `login` evaluates an
unbound name and raises `NameError`, surfaced as a 500 internal error.
This theorem evaluates the embedded handler at the failing input
(username "ghost", any password, a store without that user). -/
theorem login_bad_credentials_raises_NameError :
    login sampleDB { username := "ghost", password := "pw" } 0 =
      Resp.pyError "NameError: name 'status' is not defined" ∧
    mainImportedNames.contains "status" = false := by
  exact ⟨rfl, rfl⟩

/-- C2 counterexample: the claim says the existence check always precedes
the authorization check, so 403 arises only for resources that exist.  In
`users.py` the self check runs first: alice (id 1) updating the absent
user 99 receives 403, although user 99 does not exist. -/
theorem user_update_missing_target_403 :
    crud.get_user sampleDB 99 = none ∧
    update_user sampleDB 99 emptyUserUpdate alice 5 =
      (sampleDB, Resp.err 403 "Недостаточно прав" []) := by
  exact ⟨rfl, rfl⟩

/-- C2 amended: for item update and item delete the existence check does
precede the ownership check (a missing item yields 404 for every caller);
for user update and user delete the self check precedes the existence
check, so any caller whose id differs from the target receives 403 even
when the target is missing. -/
theorem existence_vs_authorization_order :
    (∀ db item_id up cu now, crud.get_item db item_id = none →
       update_item db item_id up cu now = (db, Resp.err 404 "Товар не найден" [])) ∧
    (∀ db item_id cu, crud.get_item db item_id = none →
       delete_item db item_id cu = (db, Resp.err 404 "Товар не найден" [])) ∧
    (∀ db user_id up cu now, cu.id ≠ user_id →
       update_user db user_id up cu now = (db, Resp.err 403 "Недостаточно прав" [])) ∧
    (∀ db user_id cu, cu.id ≠ user_id →
       delete_user db user_id cu = (db, Resp.err 403 "Недостаточно прав" [])) := by
  refine ⟨?_, ?_, ?_, ?_⟩
  · intro db item_id up cu now h
    simp [update_item, h]
  · intro db item_id cu h
    simp [delete_item, h]
  · intro db user_id up cu now h
    simp [update_user, bne_iff_ne, h]
  · intro db user_id cu h
    simp [delete_user, bne_iff_ne, h]

/-- C2 amended, witness: a missing item yields 404 to alice, and alice
(id 1) targeting user 2 is refused with 403. -/
theorem existence_vs_authorization_order_witness :
    update_item sampleDB 99 emptyItemUpdate alice 0 =
      (sampleDB, Resp.err 404 "Товар не найден" []) ∧
    delete_item sampleDB 99 alice = (sampleDB, Resp.err 404 "Товар не найден" []) ∧
    update_user sampleDB 2 emptyUserUpdate alice 0 =
      (sampleDB, Resp.err 403 "Недостаточно прав" []) ∧
    delete_user sampleDB 2 alice = (sampleDB, Resp.err 403 "Недостаточно прав" []) := by
  refine ⟨existence_vs_authorization_order.1 sampleDB 99 emptyItemUpdate alice 0 rfl,
    existence_vs_authorization_order.2.1 sampleDB 99 alice rfl,
    existence_vs_authorization_order.2.2.1 sampleDB 2 emptyUserUpdate alice 0 (by decide),
    existence_vs_authorization_order.2.2.2 sampleDB 2 alice (by decide)⟩

/-- C3: registration fails with 400 when the email already exists (checked
first, regardless of the username); otherwise fails with 400 when the
username already exists; otherwise persists and returns the created record
with 201; and the response schema renders users without any password or
password hash — two stored users differing only in their hash serialize
identically. -/
theorem register_conflict_order_and_no_password_output :
    ∀ db user now,
      (∀ u, crud.get_user_by_email db user.email = some u →
         create_user db user now = (db, Resp.err 400 "Email уже зарегистрирован" [])) ∧
      (crud.get_user_by_email db user.email = none →
       ∀ u, crud.get_user_by_username db user.username = some u →
         create_user db user now = (db, Resp.err 400 "Имя пользователя уже занято" [])) ∧
      (crud.get_user_by_email db user.email = none →
       crud.get_user_by_username db user.username = none →
       ∃ newUser db2,
         create_user db user now = (db2, Resp.ok 201 (Body.user newUser.toOut)) ∧
         db2.users = db.users ++ [newUser] ∧
         newUser.email = user.email ∧
         newUser.username = user.username ∧
         newUser.password_hash = hash_password user.password) ∧
      (∀ (u : User) (p : String), User.toOut { u with password_hash := p } = User.toOut u) := by
  intro db user now
  refine ⟨?_, ?_, ?_, ?_⟩
  · intro u h
    simp [create_user, h]
  · intro he u h
    simp [create_user, he, h]
  · intro he hn
    refine ⟨(crud.create_user db user now).2, (crud.create_user db user now).1, ?_, ?_, rfl, rfl, rfl⟩
    · simp [create_user, he, hn]
    · simp [crud.create_user]
  · intro u p
    rfl

/-- C3 witness: registering bob's email again is refused with the email
conflict; a fresh username conflict is refused with the username conflict;
a fresh pair is created. -/
theorem register_conflict_order_witness :
    create_user sampleDB
      { email := "bob@example.com", username := "newbob", full_name := none, password := "x" } 7 =
      (sampleDB, Resp.err 400 "Email уже зарегистрирован" []) ∧
    create_user sampleDB
      { email := "new@example.com", username := "bob", full_name := none, password := "x" } 7 =
      (sampleDB, Resp.err 400 "Имя пользователя уже занято" []) ∧
    User.toOut { alice with password_hash := "other" } = User.toOut alice := by
  refine ⟨(register_conflict_order_and_no_password_output sampleDB
      { email := "bob@example.com", username := "newbob", full_name := none, password := "x" } 7).1
      bob rfl,
    (register_conflict_order_and_no_password_output sampleDB
      { email := "new@example.com", username := "bob", full_name := none, password := "x" } 7).2.1
      rfl bob rfl,
    (register_conflict_order_and_no_password_output sampleDB
      { email := "new@example.com", username := "bob", full_name := none, password := "x" } 7).2.2.2
      alice "other"⟩

/-- C4: when a user update changes the email (resp. the username), the new
value is re-checked against all other users, and a collision makes the
update fail with the conflict error, the store left unchanged.  The
username conjunct covers every update on which the email check passes:
the email field may be absent, supplied unchanged, or supplied with a
value colliding with no other user. -/
theorem user_update_uniqueness_recheck :
    ∀ db user_id up cu now u,
      cu.id = user_id →
      crud.get_user db user_id = some u →
      (∀ e, up.email = some e → e ≠ u.email →
         db.users.any (fun v => v.id != u.id && v.email == e) = true →
         update_user db user_id up cu now =
           (db, Resp.err 400 "Email уже зарегистрирован" [])) ∧
      (∀ n, up.username = some n → n ≠ u.username →
         db.users.any (fun v => v.id != u.id && v.username == n) = true →
         (∀ e, up.email = some e →
            e = u.email ∨ db.users.any (fun v => v.id != u.id && v.email == e) = false) →
         update_user db user_id up cu now =
           (db, Resp.err 400 "Имя пользователя уже занято" [])) := by
  intro db user_id up cu now u hid hget
  constructor
  · intro e he hne hany
    simp [update_user, crud.update_user, hid, hget, he, hany, conflictResp,
      bne_iff_ne, hne]
  · intro n hn hne hany hemail
    cases he : up.email with
    | none =>
      simp [update_user, crud.update_user, hid, hget, hn, he, hany,
        conflictResp, bne_iff_ne, hne]
    | some e =>
      rcases hemail e he with h1 | h1
      · subst h1
        simp [update_user, crud.update_user, hid, hget, hn, he, hany,
          conflictResp, bne_iff_ne, hne]
      · simp [update_user, crud.update_user, hid, hget, hn, he, h1, hany,
          conflictResp, bne_iff_ne, hne]

/-- C4 witness: bob changing his email to alice's is refused with the
email conflict; bob taking the username "alice" is refused with the
username conflict, both when he resubmits his own email unchanged and
when he simultaneously changes it to a fresh, non-colliding one. -/
theorem user_update_uniqueness_recheck_witness :
    update_user sampleDB 2
      { email := some "alice@example.com", username := none, full_name := none, password := none }
      bob 9 = (sampleDB, Resp.err 400 "Email уже зарегистрирован" []) ∧
    update_user sampleDB 2
      { email := some "bob@example.com", username := some "alice", full_name := none, password := none }
      bob 9 = (sampleDB, Resp.err 400 "Имя пользователя уже занято" []) ∧
    update_user sampleDB 2
      { email := some "fresh@example.com", username := some "alice", full_name := none, password := none }
      bob 9 = (sampleDB, Resp.err 400 "Имя пользователя уже занято" []) := by
  refine ⟨(user_update_uniqueness_recheck sampleDB 2
      { email := some "alice@example.com", username := none, full_name := none, password := none }
      bob 9 bob rfl rfl).1 "alice@example.com" rfl (by decide) (by decide),
    (user_update_uniqueness_recheck sampleDB 2
      { email := some "bob@example.com", username := some "alice", full_name := none, password := none }
      bob 9 bob rfl rfl).2 "alice" rfl (by decide) (by decide) ?_,
    (user_update_uniqueness_recheck sampleDB 2
      { email := some "fresh@example.com", username := some "alice", full_name := none, password := none }
      bob 9 bob rfl rfl).2 "alice" rfl (by decide) (by decide) ?_⟩
  · intro e he
    injection he with h
    exact Or.inl h.symm
  · intro e he
    injection he with h
    subst h
    exact Or.inr (by decide)

/-- C5: a successful item update was performed by the item's owner, and it
leaves owner_id, id and created_at exactly as stored, while title and
is_available follow the supplied partial fields; the update request type
has no owner_id field at all (see `ItemUpdate`). -/
theorem item_update_frame :
    ∀ db item_id up cu now db2 o,
      update_item db item_id up cu now = (db2, Resp.ok 200 (Body.item o)) →
      ∃ it, crud.get_item db item_id = some it ∧ it.owner_id = cu.id ∧
        o.owner_id = it.owner_id ∧ o.id = it.id ∧ o.created_at = it.created_at ∧
        o.title = up.title.getD it.title ∧
        o.is_available = up.is_available.getD it.is_available ∧
        o.updated_at = some now := by
  intro db item_id up cu now db2 o h
  cases hget : crud.get_item db item_id with
  | none =>
    rw [update_item, hget] at h
    exact absurd h (by simp)
  | some it =>
    rw [update_item, hget] at h
    by_cases hown : it.owner_id = cu.id
    · have hb : (it.owner_id != cu.id) = false := by simp [hown]
      rw [crud.update_item, hget] at h
      simp only [hb, Bool.false_eq_true, if_false, Prod.mk.injEq, Resp.ok.injEq,
        Body.item.injEq] at h
      obtain ⟨h1, h2, h3⟩ := h
      subst h3
      exact ⟨it, rfl, hown, rfl, rfl, rfl, rfl, rfl, rfl⟩
    · have hb : (it.owner_id != cu.id) = true := by simp [bne_iff_ne, hown]
      simp only [hb, if_true] at h
      exact absurd h (by simp)

/-- C5 witness: bob updates his bike's title; the result keeps id 10,
owner 2 and the original creation time. -/
theorem item_update_frame_witness :
    ∃ it, crud.get_item sampleDB 10 = some it ∧ it.owner_id = bob.id ∧
      (Item.toOut { blueBike with title := "Red Bike", updated_at := some 4 }).owner_id = it.owner_id ∧
      (Item.toOut { blueBike with title := "Red Bike", updated_at := some 4 }).id = it.id ∧
      (Item.toOut { blueBike with title := "Red Bike", updated_at := some 4 }).created_at = it.created_at ∧
      (Item.toOut { blueBike with title := "Red Bike", updated_at := some 4 }).title =
        (some "Red Bike").getD it.title ∧
      (Item.toOut { blueBike with title := "Red Bike", updated_at := some 4 }).is_available =
        (none : Option Bool).getD it.is_available ∧
      (Item.toOut { blueBike with title := "Red Bike", updated_at := some 4 }).updated_at = some 4 := by
  exact item_update_frame sampleDB 10
    { title := some "Red Bike", description := none, price := none, is_available := none }
    bob 4 _ _ rfl

/-- C6: a created item's owner_id is the authenticated caller's id and
is_available starts true; moreover the creation request type determines
only title, description and price — it has no owner field, so two creation
requests agreeing on those three fields are equal. -/
theorem item_create_owner_is_caller :
    ∀ db item cu now,
      (∃ o, (create_item db item cu now).2 = Resp.ok 201 (Body.item o) ∧
         o.owner_id = cu.id ∧ o.is_available = true) ∧
      (∀ a b : ItemCreate, a.title = b.title → a.description = b.description →
         a.price = b.price → a = b) := by
  intro db item cu now
  constructor
  · exact ⟨_, rfl, rfl, rfl⟩
  · intro a b h1 h2 h3
    cases a
    cases b
    simp_all

/-- C6 witness: alice creates a lamp; the stored owner is alice (id 1) and
it starts available. -/
theorem item_create_owner_is_caller_witness :
    (∃ o, (create_item sampleDB { title := "Lamp", description := none, price := none } alice 3).2 =
        Resp.ok 201 (Body.item o) ∧ o.owner_id = alice.id ∧ o.is_available = true) ∧
    ({ title := "Lamp", description := none, price := none } : ItemCreate) =
      { title := "Lamp", description := none, price := none } := by
  refine ⟨(item_create_owner_is_caller sampleDB
      { title := "Lamp", description := none, price := none } alice 3).1,
    (item_create_owner_is_caller sampleDB
      { title := "Lamp", description := none, price := none } alice 3).2 _ _ rfl rfl rfl⟩

/-- C7: the authentication requirement read off every handler signature
coincides with the spec's public/protected partition, and every protected
route handled without a bearer credential fails with 401 and the Bearer
re-authentication challenge. -/
theorem route_partition_and_missing_token_401 :
    (∀ req, requiresAuth req = specProtected req) ∧
    (∀ db now req, requiresAuth req = true →
       handle db now none req =
         (db, Resp.err 401 "Could not validate credentials"
           [("WWW-Authenticate", "Bearer")])) := by
  constructor
  · intro req
    cases req <;> rfl
  · intro db now req h
    simp [handle, h, get_current_user, unauthorizedResp]

/-- C7 witness: GET /users/me without a credential is refused with 401. -/
theorem route_partition_and_missing_token_401_witness :
    handle sampleDB 0 none Request.usersMe =
      (sampleDB, Resp.err 401 "Could not validate credentials"
        [("WWW-Authenticate", "Bearer")]) := by
  exact route_partition_and_missing_token_401.2 sampleDB 0 Request.usersMe rfl

/-- C8: an item listing with a search string contains only items matching
it (case-insensitive, on title or description); the result never exceeds
`limit` elements; page `skip` is what remains of the full prefix of length
`skip + limit` after dropping the first `skip` hits; and when the store is
in ascending id order, so is the result. -/
theorem items_search_and_pagination :
    ∀ db skip limit search,
      (∀ s, search = some s →
         ∀ it ∈ crud.get_items db skip limit search, itemMatches (some s) it = true) ∧
      (crud.get_items db skip limit search).length ≤ limit ∧
      crud.get_items db skip limit search =
        (crud.get_items db 0 (skip + limit) search).drop skip ∧
      (List.Pairwise (fun a b : Item => a.id < b.id) db.items →
         List.Pairwise (fun a b : Item => a.id < b.id)
           (crud.get_items db skip limit search)) := by
  intro db skip limit search
  refine ⟨?_, ?_, ?_, ?_⟩
  · intro s hs it hit
    subst hs
    have h1 : it ∈ (db.items.filter (itemMatches (some s))).drop skip :=
      List.mem_of_mem_take hit
    exact (List.mem_filter.mp (List.mem_of_mem_drop h1)).2
  · exact List.length_take_le limit _
  · rw [crud.get_items, crud.get_items, List.drop_zero, List.drop_take]
    simp
  · intro hp
    exact ((hp.sublist (List.filter_sublist _)).sublist
      (List.drop_sublist _ _)).sublist (List.take_sublist _ _)

/-- C8 witness: searching "bike" in the sample store returns only
matching items, within the limit, in ascending id order. -/
theorem items_search_and_pagination_witness :
    (blueBike ∈ crud.get_items sampleDB 0 100 (some "bike") →
       itemMatches (some "bike") blueBike = true) ∧
    (crud.get_items sampleDB 0 100 (some "bike")).length ≤ 100 ∧
    List.Pairwise (fun a b : Item => a.id < b.id)
      (crud.get_items sampleDB 0 100 (some "bike")) := by
  have h := items_search_and_pagination sampleDB 0 100 (some "bike")
  exact ⟨fun hm => h.1 "bike" rfl blueBike hm, h.2.1, h.2.2.2 (by simp [sampleDB])⟩

/-- C9: whenever the self check of the user update/delete handlers passes
and the authenticated identity is a stored user (which the middleware
guarantees, having looked it up), the target user exists, so neither
handler can reach its 404 branch. -/
theorem self_auth_passing_target_exists :
    ∀ db user_id up cu now, cu ∈ db.users → cu.id = user_id →
      (crud.get_user db user_id).isSome = true ∧
      (update_user db user_id up cu now).2 ≠ Resp.err 404 "Пользователь не найден" [] ∧
      (delete_user db user_id cu).2 ≠ Resp.err 404 "Пользователь не найден" [] := by
  intro db user_id up cu now hmem hid
  have hsome : (crud.get_user db user_id).isSome = true := by
    rw [crud.get_user, List.find?_isSome]
    exact ⟨cu, hmem, by simp [hid]⟩
  obtain ⟨u, hu⟩ := Option.isSome_iff_exists.mp hsome
  have hb : (cu.id != user_id) = false := by simp [hid]
  refine ⟨hsome, ?_, ?_⟩
  · rcases hres : crud.update_user db user_id up now with e | o
    · cases e <;> simp [update_user, hb, hres, conflictResp]
    · cases o with
      | none =>
        exfalso
        rw [crud.update_user, hu] at hres
        simp only [] at hres
        split_ifs at hres
        all_goals simp_all
      | some r => simp [update_user, hb, hres]
  · simp [delete_user, hb, crud.delete_user, hu]

/-- C9 witness: alice (a stored user) updating or deleting herself never
sees the user-not-found outcome. -/
theorem self_auth_passing_target_exists_witness :
    (crud.get_user sampleDB 1).isSome = true ∧
    (update_user sampleDB 1 emptyUserUpdate alice 3).2 ≠
      Resp.err 404 "Пользователь не найден" [] ∧
    (delete_user sampleDB 1 alice).2 ≠ Resp.err 404 "Пользователь не найден" [] := by
  exact self_auth_passing_target_exists sampleDB 1 emptyUserUpdate alice 3
    (by simp [sampleDB]) rfl

/-- C10: the three list endpoints default to skip 0 and limit 100, so a
call without pagination parameters returns at most 100 records. -/
theorem list_defaults_cap_at_100 :
    ∀ db cu search,
      defaultSkip = 0 ∧ defaultLimit = 100 ∧
      (∃ l, read_users_default db = Resp.ok 200 (Body.userList l) ∧ l.length ≤ 100) ∧
      (∃ l, read_items_default db search = Resp.ok 200 (Body.itemList l) ∧ l.length ≤ 100) ∧
      (∃ l, read_user_items_default db cu = Resp.ok 200 (Body.itemList l) ∧ l.length ≤ 100) := by
  intro db cu search
  refine ⟨rfl, rfl, ⟨_, rfl, ?_⟩, ⟨_, rfl, ?_⟩, ⟨_, rfl, ?_⟩⟩
  · simp only [List.length_map, crud.get_users, List.length_take, defaultLimit]
    omega
  · simp only [List.length_map, crud.get_items, List.length_take, defaultLimit]
    omega
  · simp only [List.length_map, crud.get_user_items, List.length_take, defaultLimit]
    omega

end FastapiSite
